import Mathlib

/-!
Verification development for the NSS-Bloodlink demand-forecasting and
inventory-redistribution engine.

The definitions below are a shallow embedding of
`backend/app/services/forecasting.py` (class `BloodDemandForecaster`) and
`backend/app/services/redistribution.py` (class `BloodRedistributor`).
Python floats are modelled as exact rationals (`ℚ`), except where the code
takes a genuine square root (`np.std`), which is modelled in `ℝ`.
Python ints are `ℤ`/`ℕ`, raised exceptions are `Except` errors, and the
SQLAlchemy session is modelled as the list of inventory rows it holds
(joined with their hospital's name and location).  `datetime` values are
modelled by the two projections the code reads: `.month` and `.weekday()`.
Calls to `np.random.random()` are modelled by explicitly passed draws.
-/

namespace Bloodlink

/-- Model of a Python `datetime`: the code only ever reads the month and the
weekday of a date. -/
structure PyDateTime where
  month : ℕ
  weekday : ℕ
deriving DecidableEq

/-- Embedding of `BloodDemandForecaster.determine_season` (forecasting.py):
month 12/1/2 → Winter, 3/4/5 → Summer, 6/7/8/9 → Monsoon, else Post-Monsoon. -/
def determine_season (month : ℕ) : String :=
  if month = 12 ∨ month = 1 ∨ month = 2 then "Winter"
  else if month = 3 ∨ month = 4 ∨ month = 5 then "Summer"
  else if month = 6 ∨ month = 7 ∨ month = 8 ∨ month = 9 then "Monsoon"
  else "Post-Monsoon"

/-- Embedding of `BloodDemandForecaster.assess_shortage_risk` (forecasting.py).
Demand is a Python float (`ℚ`), inventory a Python int (`ℤ`). -/
def assess_shortage_risk (predicted_demand : ℚ) (current_inventory : ℤ) : String :=
  if current_inventory ≤ 0 then "Critical"
  else
    -- coverage_ratio = current_inventory / predicted_demand if predicted_demand > 0 else 10
    let coverage_ratio : ℚ :=
      if 0 < predicted_demand then (current_inventory : ℚ) / predicted_demand else 10
    if 3 ≤ coverage_ratio then "Low"
    else if 2 ≤ coverage_ratio then "Medium"
    else if 1 ≤ coverage_ratio then "High"
    else "Critical"

/-- Model of a fitted `sklearn` `LabelEncoder`: `transform` on a single value
either yields its code or fails (`none`) for an out-of-vocabulary value, which
the calling code catches and replaces by 0. -/
structure LabelEncoder where
  transform : String → Option ℕ

/-- Model of a fitted `RandomForestRegressor`: its point prediction on a
feature vector, together with the per-tree predictions (`estimators_`) that
`predict_demand` uses for its confidence spread. -/
structure RandomForest where
  predict : List ℚ → ℚ
  estimators : List (List ℚ → ℚ)

/-- State of a `BloodDemandForecaster` object (its `__init__` fields). -/
structure BloodDemandForecaster where
  model : Option RandomForest
  blood_type_encoder : LabelEncoder
  region_encoder : LabelEncoder
  season_encoder : LabelEncoder
  model_path : String
  is_trained : Bool

/-- Content of the `joblib` artifact written by `save_model`: the `model_data`
dictionary of forecasting.py. -/
structure ModelArtifact where
  model : Option RandomForest
  blood_type_encoder : LabelEncoder
  region_encoder : LabelEncoder
  season_encoder : LabelEncoder
  is_trained : Bool

/-- Embedding of `BloodDemandForecaster.save_model`: serialize the model, the
three encoders and the trained flag. -/
def save_model (s : BloodDemandForecaster) : ModelArtifact :=
  { model := s.model
    blood_type_encoder := s.blood_type_encoder
    region_encoder := s.region_encoder
    season_encoder := s.season_encoder
    is_trained := s.is_trained }

/-- Embedding of `BloodDemandForecaster.load_model`: overwrite the five fields
of the object with those of the artifact (the `model_path` is untouched). -/
def load_model (s : BloodDemandForecaster) (a : ModelArtifact) : BloodDemandForecaster :=
  { s with
    model := a.model
    blood_type_encoder := a.blood_type_encoder
    region_encoder := a.region_encoder
    season_encoder := a.season_encoder
    is_trained := a.is_trained }

/-- Model of `np.std` on a list of floats: the square root of the mean squared
deviation from the mean.  The inner arithmetic is exact (`ℚ`); the square root
lives in `ℝ`. -/
noncomputable def np_std (xs : List ℚ) : ℝ :=
  let n : ℚ := xs.length
  let mean : ℚ := xs.sum / n
  Real.sqrt (((xs.map fun x => (x - mean) ^ 2).sum / n : ℚ) : ℝ)

/-- Embedding of `BloodDemandForecaster.predict_demand`.  `rand` is the draw of
`np.random.random()` used for the disease-outbreak indicator.  The Python guard
`if not self.is_trained or self.model is None: raise ValueError(...)` becomes
the two error branches below. -/
noncomputable def predict_demand (s : BloodDemandForecaster) (blood_type region : String)
    (forecast_date : PyDateTime) (rand : ℚ) : Except String (ℚ × ℝ) :=
  match s.model with
  | none => .error "Model must be trained before making predictions"
  | some m =>
    if s.is_trained = false then .error "Model must be trained before making predictions"
    else
      let season := determine_season forecast_date.month
      -- try/except around encoder.transform: fall back to code 0 when unseen
      let blood_type_encoded : ℚ := ((s.blood_type_encoder.transform blood_type).getD 0 : ℕ)
      let region_encoded : ℚ := ((s.region_encoder.transform region).getD 0 : ℕ)
      let season_encoded : ℚ := ((s.season_encoder.transform season).getD 0 : ℕ)
      let disease_outbreak : ℚ :=
        if (season = "Monsoon" ∨ season = "Post-Monsoon") ∧ rand < 1 / 10 then 1 else 0
      let is_monsoon : ℚ := if season = "Monsoon" ∨ season = "Post-Monsoon" then 1 else 0
      let features : List ℚ :=
        [blood_type_encoded, region_encoded, season_encoded,
         (forecast_date.weekday : ℚ), (forecast_date.month : ℚ), disease_outbreak, is_monsoon]
      let prediction : ℚ := m.predict features
      let std_dev : ℝ := np_std (m.estimators.map fun t => t features)
      let confidence : ℝ :=
        max 0.5 (min 0.95 (if 0 < prediction then 1 - std_dev / (prediction : ℝ) else 0.7))
      .ok (prediction, confidence)

/-- One `DemandForecast` record as assembled by `generate_forecasts`. -/
structure DemandForecast where
  blood_type : String
  region : String
  forecast_date : PyDateTime
  predicted_demand : ℚ
  confidence : ℝ
  shortage_risk : String
  alert_sent : Bool

/-- Default region list of `generate_forecasts`. -/
def default_regions : List String :=
  ["South Delhi", "North Delhi", "East Delhi", "West Delhi",
   "Central Delhi", "Noida", "Gurgaon", "Dwarka"]

/-- Blood-type vocabulary of `generate_forecasts`. -/
def blood_types : List String := ["O+", "A+", "B+", "AB+", "O-", "A-", "B-", "AB-"]

/-- Embedding of `BloodDemandForecaster.generate_forecasts`.

`db` models the database session's current inventory per (blood type, region)
cell; the code receives it but never reads it — it sets
`current_inventory = 50` with the comment "For demo, we'll use a default
value.  In production, query from InventoryLevel table".  `forecast_date`
stands for `datetime.now() + timedelta(hours=hours_ahead)`, and `rand` is the
per-cell `np.random.random()` draw made inside `predict_demand`.  The per-cell
`try/except` that logs and skips a failing cell becomes `filterMap`. -/
noncomputable def generate_forecasts (s : BloodDemandForecaster)
    (db : String → String → ℤ) (forecast_date : PyDateTime)
    (rand : String → String → ℚ) (regions : Option (List String)) :
    Except String (List DemandForecast) :=
  if s.is_trained = false then .error "Model must be trained before generating forecasts"
  else
    let regions := regions.getD default_regions
    .ok <| regions.flatMap fun region =>
      blood_types.filterMap fun blood_type =>
        let current_inventory : ℤ := 50
        match predict_demand s blood_type region forecast_date (rand blood_type region) with
        | .error _ => none
        | .ok (predicted_demand, confidence) =>
          some { blood_type := blood_type
                 region := region
                 forecast_date := forecast_date
                 predicted_demand := predicted_demand
                 confidence := confidence
                 shortage_risk := assess_shortage_risk predicted_demand current_inventory
                 alert_sent := false }

/-! Embedding of `backend/app/services/redistribution.py` (class
`BloodRedistributor`).  The database session is modelled as the list of
`InventoryLevel` rows it holds; the `join(Hospital)` is modelled by carrying
the hospital's name and location on the row. -/

/-- One `InventoryLevel` row, joined with its hospital's name and location. -/
structure InventoryLevel where
  hospital_id : ℤ
  hospital_name : String
  location : String
  blood_type : String
  current_units : ℤ
  min_required : ℤ
  max_capacity : ℤ
deriving DecidableEq

/-- One entry of the list built by `get_inventory_status` (a Python dict). -/
structure InventoryStatus where
  hospital_id : ℤ
  hospital_name : String
  location : String
  blood_type : String
  current_units : ℤ
  min_required : ℤ
  max_capacity : ℤ
  shortage : ℤ
  surplus : ℚ
  status : String
deriving DecidableEq

/-- Embedding of `BloodRedistributor._get_inventory_status_level`. -/
def get_inventory_status_level (inv : InventoryLevel) : String :=
  if (inv.current_units : ℚ) < (inv.min_required : ℚ) * 0.5 then "Critical"
  else if inv.current_units < inv.min_required then "Low"
  else if (inv.max_capacity : ℚ) * 0.9 < (inv.current_units : ℚ) then "Excess"
  else "Adequate"

/-- The dictionary built for one row inside `get_inventory_status`:
`shortage = max(0, min_required - current_units)` is int arithmetic and
`surplus = max(0, current_units - min_required * 1.5)` is float arithmetic. -/
def inventory_status_of (inv : InventoryLevel) : InventoryStatus :=
  { hospital_id := inv.hospital_id
    hospital_name := inv.hospital_name
    location := inv.location
    blood_type := inv.blood_type
    current_units := inv.current_units
    min_required := inv.min_required
    max_capacity := inv.max_capacity
    shortage := max 0 (inv.min_required - inv.current_units)
    surplus := max 0 ((inv.current_units : ℚ) - (inv.min_required : ℚ) * 1.5)
    status := get_inventory_status_level inv }

/-- Embedding of `BloodRedistributor.get_inventory_status`.  The SQL
`Hospital.location.like("%region%")` filter is modelled as a substring test on
the location. -/
def get_inventory_status (db : List InventoryLevel)
    (blood_type : Option String) (region : Option String) : List InventoryStatus :=
  let q1 : List InventoryLevel := match blood_type with
    | some bt => db.filter fun i => decide (i.blood_type = bt)
    | none => db
  let q2 : List InventoryLevel := match region with
    | some r => q1.filter fun i => decide (r.toList <:+: i.location.toList)
    | none => q1
  q2.map inventory_status_of

/-- Embedding of `BloodRedistributor._calculate_priority`. -/
def calculate_priority (shortage surplus : InventoryStatus) : ℚ :=
  (if shortage.status = "Critical" then 100 else if shortage.status = "Low" then 50 else 0)
    + (shortage.shortage : ℚ) * 2 + surplus.surplus * 0.5

/-- Embedding of `BloodRedistributor._generate_reason` (an f-string;
`int(surplus['surplus'])` truncates the nonnegative float to an integer). -/
def generate_reason (shortage surplus : InventoryStatus) : String :=
  shortage.hospital_name ++ " has " ++ toString shortage.shortage
    ++ " unit shortage while " ++ surplus.hospital_name ++ " has "
    ++ toString ⌊surplus.surplus⌋ ++ " unit surplus"

/-- One element of the `recommendations` list of
`identify_redistribution_opportunities` (a Python dict).  The last two fields
model the `forecast_based` / `predicted_shortage_regions` keys that
`apply_forecast_based_redistribution` adds to the dict afterwards. -/
structure Recommendation where
  from_hospital_id : ℤ
  from_hospital_name : String
  to_hospital_id : ℤ
  to_hospital_name : String
  blood_type : String
  transfer_units : ℚ
  priority : ℚ
  reason : String
  forecast_based : Bool := false
  predicted_shortage_regions : List String := []
deriving DecidableEq

/-- The dictionary appended for one (shortage, surplus) pair:
`transfer_units = min(shortage['shortage'], surplus['surplus'])` mixes an int
and a float, hence lives in `ℚ`. -/
def make_recommendation (shortage surplus : InventoryStatus) : Recommendation :=
  { from_hospital_id := surplus.hospital_id
    from_hospital_name := surplus.hospital_name
    to_hospital_id := shortage.hospital_id
    to_hospital_name := shortage.hospital_name
    blood_type := shortage.blood_type
    transfer_units := min (shortage.shortage : ℚ) surplus.surplus
    priority := calculate_priority shortage surplus
    reason := generate_reason shortage surplus }

/-- Embedding of `BloodRedistributor.identify_redistribution_opportunities`:
partition the status list into surplus and shortage rows, propose a transfer
for every same-blood-type pair with positive `min(shortage, surplus)`, then
`recommendations.sort(key=priority, reverse=True)` (a stable descending sort,
modelled by `mergeSort` with the reversed order). -/
def identify_redistribution_opportunities (db : List InventoryLevel)
    (blood_type : Option String) : List Recommendation :=
  let inventory_status := get_inventory_status db blood_type none
  let surplus_hospitals := inventory_status.filter fun inv => decide (0 < inv.surplus)
  let shortage_hospitals := inventory_status.filter fun inv => decide (0 < inv.shortage)
  let recommendations := shortage_hospitals.flatMap fun shortage =>
    surplus_hospitals.filterMap fun surplus =>
      if shortage.blood_type ≠ surplus.blood_type then none
      else if 0 < min (shortage.shortage : ℚ) surplus.surplus then
        some (make_recommendation shortage surplus)
      else none
  recommendations.mergeSort fun a b => decide (b.priority ≤ a.priority)

/-- Position of a risk name in `risk_levels = ["Low", "Medium", "High",
"Critical"]`; `none` models the `ValueError` that Python's `list.index`
raises for an unknown name. -/
def risk_levels : List String := ["Low", "Medium", "High", "Critical"]

/-- Model of `risk_levels.index r` (`none` = `ValueError`). -/
def riskIndex? (r : String) : Option ℕ := risk_levels.indexOf? r

/-- Embedding of `BloodRedistributor.apply_forecast_based_redistribution`.
The guard `∀ f ∈ forecasts, ...isSome` models that Python evaluates
`risk_levels.index(f.shortage_risk)` for every forecast while filtering and
raises on an unknown risk name.  The `defaultdict` grouping preserves
first-appearance order of the blood-type keys, modelled by the fold. -/
def apply_forecast_based_redistribution (db : List InventoryLevel)
    (forecasts : List DemandForecast) (threshold_risk : String) :
    Except String (List Recommendation) :=
  match riskIndex? threshold_risk with
  | none => .error "ValueError"
  | some threshold_index =>
    if ∀ f ∈ forecasts, (riskIndex? f.shortage_risk).isSome = true then
      let high_risk_forecasts := forecasts.filter fun f =>
        decide (threshold_index ≤ (riskIndex? f.shortage_risk).getD 0)
      let type_keys := high_risk_forecasts.foldl
        (fun acc f => if f.blood_type ∈ acc then acc else acc ++ [f.blood_type]) []
      .ok <| type_keys.flatMap fun bt =>
        let type_forecasts := high_risk_forecasts.filter fun f => decide (f.blood_type = bt)
        (identify_redistribution_opportunities db (some bt)).map fun opp =>
          { opp with
            forecast_based := true
            predicted_shortage_regions := type_forecasts.map fun f => f.region }
    else .error "ValueError"

/-- The two structured failures of `execute_redistribution`. -/
inductive TransferError where
  | insufficientInventory
  | capacityExceeded
deriving DecidableEq

/-- The success dictionary returned by `execute_redistribution`. -/
structure TransferSuccess where
  from_hospital_id : ℤ
  to_hospital_id : ℤ
  blood_type : String
  units_transferred : ℤ
  source_remaining : ℤ
  dest_new_level : ℤ
deriving DecidableEq

/-- Model of `db.query(InventoryLevel).filter(and_(hospital_id == h,
blood_type == bt)).first()`. -/
def findInv (db : List InventoryLevel) (hid : ℤ) (bt : String) : Option InventoryLevel :=
  db.find? fun i => decide (i.hospital_id = hid ∧ i.blood_type = bt)

/-- Mutate the first row matching (hospital id, blood type); the ORM mutates
the row object in place. -/
def updateInv (db : List InventoryLevel) (hid : ℤ) (bt : String)
    (f : InventoryLevel → InventoryLevel) : List InventoryLevel :=
  match db with
  | [] => []
  | c :: rest =>
    if c.hospital_id = hid ∧ c.blood_type = bt then f c :: rest
    else c :: updateInv rest hid bt f

/-- Embedding of `BloodRedistributor.execute_redistribution`.  The returned
list is the committed database state: on the failure paths the function
returns before any mutation or commit, so the input state is returned
unchanged (the destination row created for a missing cell is only added to
the session and becomes visible in the committed state on success). -/
def execute_redistribution (db : List InventoryLevel)
    (from_hospital_id to_hospital_id : ℤ) (blood_type : String) (units : ℤ) :
    Except TransferError TransferSuccess × List InventoryLevel :=
  match findInv db from_hospital_id blood_type with
  | none => (.error .insufficientInventory, db)
  | some source_inv =>
    if source_inv.current_units < units then (.error .insufficientInventory, db)
    else
      -- destination row, created with defaults if absent
      let p : InventoryLevel × List InventoryLevel :=
        match findInv db to_hospital_id blood_type with
        | some d => (d, db)
        | none =>
          let dcell : InventoryLevel :=
            { hospital_id := to_hospital_id
              hospital_name := ""
              location := ""
              blood_type := blood_type
              current_units := 0
              min_required := 10
              max_capacity := 100 }
          (dcell, db ++ [dcell])
      let dest_inv := p.1
      if dest_inv.max_capacity < dest_inv.current_units + units then
        (.error .capacityExceeded, db)
      else
        let db2 := updateInv p.2 from_hospital_id blood_type
          fun c => { c with current_units := c.current_units - units }
        let db3 := updateInv db2 to_hospital_id blood_type
          fun c => { c with current_units := c.current_units + units }
        (.ok { from_hospital_id := from_hospital_id
               to_hospital_id := to_hospital_id
               blood_type := blood_type
               units_transferred := units
               source_remaining :=
                 ((findInv db3 from_hospital_id blood_type).map fun c => c.current_units).getD 0
               dest_new_level :=
                 ((findInv db3 to_hospital_id blood_type).map fun c => c.current_units).getD 0 },
         db3)

/-! Concrete demo objects used by scenario parts and witnesses. -/

/-- Scenario A cell: (hospitalA, "O+", current=2, min=10, max=100). -/
def hospitalA_cell : InventoryLevel :=
  { hospital_id := 1, hospital_name := "hospitalA", location := "South Delhi",
    blood_type := "O+", current_units := 2, min_required := 10, max_capacity := 100 }

/-- Scenario A cell: (hospitalB, "O+", current=60, min=10, max=100). -/
def hospitalB_cell : InventoryLevel :=
  { hospital_id := 2, hospital_name := "hospitalB", location := "North Delhi",
    blood_type := "O+", current_units := 60, min_required := 10, max_capacity := 100 }

/-- Scenario A database: exactly the two cells above. -/
def demo_db : List InventoryLevel := [hospitalA_cell, hospitalB_cell]

/-- Scenario C database: hospital 1 holds 20 units of "A+". -/
def transfer_demo_db : List InventoryLevel :=
  [{ hospital_id := 1, hospital_name := "Hospital One", location := "Delhi",
     blood_type := "A+", current_units := 20, min_required := 10, max_capacity := 100 },
   { hospital_id := 2, hospital_name := "Hospital Two", location := "Delhi",
     blood_type := "A+", current_units := 30, min_required := 10, max_capacity := 100 }]

/-- An encoder that knows every value (code 0). -/
def constant_encoder : LabelEncoder := ⟨fun _ => some 0⟩

/-- An unfitted encoder: `transform` fails on every value. -/
def untrained_encoder : LabelEncoder := ⟨fun _ => none⟩

/-- The state a `BloodDemandForecaster()` is constructed in (`__init__`). -/
def initial_forecaster : BloodDemandForecaster :=
  { model := none
    blood_type_encoder := untrained_encoder
    region_encoder := untrained_encoder
    season_encoder := untrained_encoder
    model_path := "/tmp/blood_demand_model.pkl"
    is_trained := false }

/-- A one-tree forest predicting constant demand 10. -/
def demo_forest : RandomForest := ⟨fun _ => 10, [fun _ => 10]⟩

/-- A trained forecaster state holding `demo_forest`. -/
def trained_forecaster : BloodDemandForecaster :=
  { model := some demo_forest
    blood_type_encoder := constant_encoder
    region_encoder := constant_encoder
    season_encoder := constant_encoder
    model_path := "/tmp/blood_demand_model.pkl"
    is_trained := true }

/-! Claims C3 to C6. -/

/-- The shortage-risk classifier exactly as the claim words it: Critical when
inventory is non-positive, otherwise classify the coverage ratio, which is
`i / d` when `d > 0` and `10` when `d` is `0`. -/
def spec_shortage_risk (d : ℚ) (i : ℤ) : String :=
  if i ≤ 0 then "Critical"
  else
    let ratio : ℚ := if d = 0 then 10 else (i : ℚ) / d
    if 3 ≤ ratio then "Low"
    else if 2 ≤ ratio then "Medium"
    else if 1 ≤ ratio then "High"
    else "Critical"

/-- C3: for every predicted demand `d ≥ 0` and inventory `i`,
`assess_shortage_risk d i` agrees with the claim's description
(`spec_shortage_risk`), and in particular `assess_shortage_risk 10 35 = "Low"`
(coverage ratio 3.5). -/
theorem claim_C3 :
    (∀ (d : ℚ) (i : ℤ), 0 ≤ d → assess_shortage_risk d i = spec_shortage_risk d i)
    ∧ assess_shortage_risk 10 35 = "Low" := by
  constructor
  · intro d i hd
    simp only [assess_shortage_risk, spec_shortage_risk]
    rcases eq_or_lt_of_le hd with h0 | h0
    · simp [← h0]
    · simp [h0, h0.ne']
  · norm_num [assess_shortage_risk]

/-- Witness for C3 at the scenario input `d = 10`, `i = 35`. -/
theorem claim_C3_witness : assess_shortage_risk 10 35 = spec_shortage_risk 10 35 :=
  claim_C3.1 10 35 (by norm_num)

/-- Ordinal severity of a risk name: its position in
`["Low", "Medium", "High", "Critical"]`. -/
def risk_severity (r : String) : ℕ := risk_levels.indexOf r

/-- C4: for fixed demand `d ≥ 0`, the severity of `assess_shortage_risk d i`
is monotonically non-increasing in the inventory `i`. -/
theorem claim_C4 : ∀ (d : ℚ) (i1 i2 : ℤ), 0 ≤ d → i1 ≤ i2 →
    risk_severity (assess_shortage_risk d i2) ≤ risk_severity (assess_shortage_risk d i1) := by
  intro d i1 i2 _ h12
  simp only [assess_shortage_risk]
  by_cases h2 : i2 ≤ 0
  · have h1 : i1 ≤ 0 := le_trans h12 h2
    rw [if_pos h1, if_pos h2]
  · by_cases h1 : i1 ≤ 0
    · rw [if_pos h1, if_neg h2]
      split_ifs <;> decide
    · rw [if_neg h1, if_neg h2]
      set R1 : ℚ := if 0 < d then (i1 : ℚ) / d else 10 with hR1def
      set R2 : ℚ := if 0 < d then (i2 : ℚ) / d else 10 with hR2def
      have hi12 : ((i1 : ℤ) : ℚ) ≤ ((i2 : ℤ) : ℚ) := by exact_mod_cast h12
      have hr : R1 ≤ R2 := by
        rw [hR1def, hR2def]
        split_ifs with hd0
        · exact div_le_div_of_nonneg_right hi12 hd0.le
        · exact le_rfl
      split_ifs <;> first | decide | (exfalso; linarith [hr])

/-- Witness for C4 at `d = 10`, inventories `5 ≤ 35`. -/
theorem claim_C4_witness :
    risk_severity (assess_shortage_risk 10 35) ≤ risk_severity (assess_shortage_risk 10 5) :=
  claim_C4 10 5 35 (by norm_num) (by norm_num)

/-- C5: saving a trained forecaster's artifact and loading it into any
forecaster state restores the encoder/regressor pair, so `predict_demand`
returns the identical (prediction, confidence) pair on every input. -/
theorem claim_C5 : ∀ (s t : BloodDemandForecaster), s.is_trained = true →
    ∀ (bt r : String) (fd : PyDateTime) (rand : ℚ),
      predict_demand (load_model t (save_model s)) bt r fd rand =
        predict_demand s bt r fd rand := by
  intro s t _ bt r fd rand
  rfl

/-- Witness for C5: the round trip through the artifact of the concrete
trained forecaster, loaded over the freshly-constructed state. -/
theorem claim_C5_witness :
    predict_demand (load_model initial_forecaster (save_model trained_forecaster))
        "O+" "South Delhi" ⟨1, 0⟩ 0 =
      predict_demand trained_forecaster "O+" "South Delhi" ⟨1, 0⟩ 0 :=
  claim_C5 trained_forecaster initial_forecaster rfl "O+" "South Delhi" ⟨1, 0⟩ 0

/-- C6: in an untrained state, `predict_demand` and `generate_forecasts` both
fail with the model-not-ready error and never return results. -/
theorem claim_C6 : ∀ (s : BloodDemandForecaster), s.is_trained = false →
    ∀ (bt r : String) (fd : PyDateTime) (rand : ℚ)
      (db : String → String → ℤ) (rnds : String → String → ℚ)
      (regions : Option (List String)),
      predict_demand s bt r fd rand =
          .error "Model must be trained before making predictions" ∧
      generate_forecasts s db fd rnds regions =
          .error "Model must be trained before generating forecasts" := by
  intro s hs bt r fd rand db rnds regions
  constructor
  · rcases s with ⟨mo, bte, re, se, mp, tr⟩
    simp only at hs
    cases mo
    · rfl
    · simp [predict_demand, hs]
  · simp [generate_forecasts, hs]

/-- Witness for C6 at the freshly-constructed forecaster state. -/
theorem claim_C6_witness :
    predict_demand initial_forecaster "O+" "South Delhi" ⟨1, 0⟩ 0 =
        .error "Model must be trained before making predictions" ∧
    generate_forecasts initial_forecaster (fun _ _ => 0) ⟨1, 0⟩ (fun _ _ => 0) none =
        .error "Model must be trained before generating forecasts" :=
  claim_C6 initial_forecaster rfl "O+" "South Delhi" ⟨1, 0⟩ 0
    (fun _ _ => 0) (fun _ _ => 0) none

/-- C2: `execute_redistribution` fails with `insufficientInventory` when the
source cell holds strictly fewer units than requested, fails with
`capacityExceeded` when the destination's units plus the request exceed its
maximum capacity, leaves the database unchanged on every failure, and in
particular transferring 50 units from a source holding 20 fails with
`insufficientInventory` and changes nothing. -/
theorem claim_C2 :
    (∀ (db : List InventoryLevel) (fh th : ℤ) (bt : String) (u : ℤ)
       (src : InventoryLevel),
       findInv db fh bt = some src → src.current_units < u →
       execute_redistribution db fh th bt u = (.error .insufficientInventory, db))
  ∧ (∀ (db : List InventoryLevel) (fh th : ℤ) (bt : String) (u : ℤ)
       (src dst : InventoryLevel),
       findInv db fh bt = some src → ¬ src.current_units < u →
       findInv db th bt = some dst → dst.max_capacity < dst.current_units + u →
       execute_redistribution db fh th bt u = (.error .capacityExceeded, db))
  ∧ (∀ (db : List InventoryLevel) (fh th : ℤ) (bt : String) (u : ℤ)
       (e : TransferError),
       (execute_redistribution db fh th bt u).1 = .error e →
       (execute_redistribution db fh th bt u).2 = db)
  ∧ execute_redistribution transfer_demo_db 1 2 "A+" 50 =
      (.error .insufficientInventory, transfer_demo_db) := by
  refine ⟨?_, ?_, ?_, ?_⟩
  · intro db fh th bt u src hfind hlt
    simp [execute_redistribution, hfind, hlt]
  · intro db fh th bt u src dst hsrc hge hdst hcap
    simp [execute_redistribution, hsrc, hge, hdst, hcap]
  · intro db fh th bt u e h
    cases hfind : findInv db fh bt with
    | none => simp [execute_redistribution, hfind]
    | some src =>
      by_cases hlt : src.current_units < u
      · simp [execute_redistribution, hfind, hlt]
      · cases hdst : findInv db th bt with
        | some dst =>
          by_cases hcap : dst.max_capacity < dst.current_units + u
          · simp [execute_redistribution, hfind, hlt, hdst, hcap]
          · exfalso
            simp [execute_redistribution, hfind, hlt, hdst, hcap] at h
        | none =>
          by_cases hcap : (100 : ℤ) < u
          · simp [execute_redistribution, hfind, hlt, hdst, hcap]
          · exfalso
            simp [execute_redistribution, hfind, hlt, hdst, hcap] at h
  · rfl

/-- Witness for C2 at Scenario C: requesting 50 units from a source holding
20 fails with `insufficientInventory` and leaves the database unchanged. -/
theorem claim_C2_witness :
    execute_redistribution transfer_demo_db 1 2 "A+" 50 =
      (.error .insufficientInventory, transfer_demo_db) :=
  claim_C2.1 transfer_demo_db 1 2 "A+" 50
    { hospital_id := 1, hospital_name := "Hospital One", location := "Delhi",
      blood_type := "A+", current_units := 20, min_required := 10, max_capacity := 100 }
    rfl (by norm_num)

/-! Helper lemmas about `get_inventory_status` and
`identify_redistribution_opportunities`. -/

/-- Every status row is the image of an inventory row of the database. -/
lemma mem_get_inventory_status {db : List InventoryLevel} {bt r : Option String}
    {st : InventoryStatus} (h : st ∈ get_inventory_status db bt r) :
    ∃ c ∈ db, inventory_status_of c = st := by
  simp only [get_inventory_status, List.mem_map] at h
  obtain ⟨c, hc, hst⟩ := h
  refine ⟨c, ?_, hst⟩
  rcases bt with _ | btv <;> rcases r with _ | rv
  · exact hc
  · exact List.mem_of_mem_filter hc
  · exact List.mem_of_mem_filter hc
  · exact List.mem_of_mem_filter (List.mem_of_mem_filter hc)

/-- With a blood-type filter, every status row carries that blood type. -/
lemma blood_type_of_mem_status {db : List InventoryLevel} {bt : String}
    {r : Option String} {st : InventoryStatus}
    (h : st ∈ get_inventory_status db (some bt) r) : st.blood_type = bt := by
  simp only [get_inventory_status, List.mem_map] at h
  obtain ⟨c, hc, hst⟩ := h
  have hcq : c ∈ db.filter fun i => decide (i.blood_type = bt) := by
    rcases r with _ | rv
    · exact hc
    · exact List.mem_of_mem_filter hc
  have hbt : c.blood_type = bt := of_decide_eq_true (List.mem_filter.mp hcq).2
  rw [← hst]
  exact hbt

/-- Characterization of membership in the recommendation list: exactly the
same-blood-type (shortage, surplus) pairs with positive proposed transfer. -/
lemma mem_identify_iff (db : List InventoryLevel) (bt : Option String)
    (o : Recommendation) :
    o ∈ identify_redistribution_opportunities db bt ↔
      ∃ sh ∈ get_inventory_status db bt none, ∃ sp ∈ get_inventory_status db bt none,
        0 < sh.shortage ∧ 0 < sp.surplus ∧ sh.blood_type = sp.blood_type ∧
        0 < min (sh.shortage : ℚ) sp.surplus ∧ o = make_recommendation sh sp := by
  simp only [identify_redistribution_opportunities]
  rw [List.mem_mergeSort]
  simp only [List.mem_flatMap, List.mem_filterMap, List.mem_filter, decide_eq_true_eq]
  constructor
  · rintro ⟨sh, ⟨hshmem, hshpos⟩, sp, ⟨hspmem, hsppos⟩, hif⟩
    split_ifs at hif with hbt hpos <;>
      first
        | exact Option.noConfusion hif
        | exact ⟨sh, hshmem, sp, hspmem, hshpos, hsppos, not_not.mp hbt, hpos,
            (Option.some.inj hif).symm⟩
  · rintro ⟨sh, hshmem, sp, hspmem, hshpos, hsppos, hbt, hpos, rfl⟩
    refine ⟨sh, ⟨hshmem, hshpos⟩, sp, ⟨hspmem, hsppos⟩, ?_⟩
    rw [if_neg (not_not.mpr hbt), if_pos hpos]

/-- C7: the recommendation list of `identify_redistribution_opportunities` is
always sorted by non-increasing priority. -/
theorem claim_C7 : ∀ (db : List InventoryLevel) (bt : Option String),
    List.Pairwise (fun a b : Recommendation => b.priority ≤ a.priority)
      (identify_redistribution_opportunities db bt) := by
  intro db bt
  simp only [identify_redistribution_opportunities]
  exact List.Pairwise.imp (fun h => of_decide_eq_true h)
    (List.sorted_mergeSort
      (fun a b c hab hbc => by
        simp only [decide_eq_true_eq] at hab hbc ⊢
        exact le_trans hbc hab)
      (fun a b => by
        simp only [Bool.or_eq_true, decide_eq_true_eq]
        exact le_total b.priority a.priority)
      _)

/-- Witness for C7 at the Scenario A database. -/
theorem claim_C7_witness :
    List.Pairwise (fun a b : Recommendation => b.priority ≤ a.priority)
      (identify_redistribution_opportunities demo_db none) :=
  claim_C7 demo_db none

/-- Evaluation of Scenario A: the two-cell database produces exactly one
recommendation, 8 units from hospitalB to hospitalA. -/
lemma demo_identify :
    identify_redistribution_opportunities demo_db none =
      [make_recommendation (inventory_status_of hospitalA_cell)
        (inventory_status_of hospitalB_cell)] := by
  simp only [identify_redistribution_opportunities, get_inventory_status, demo_db,
    List.map_cons, List.map_nil, List.filter_cons, List.filter_nil]
  norm_num [inventory_status_of, hospitalA_cell, hospitalB_cell, max_def,
    List.flatMap_cons, List.flatMap_nil, List.filterMap_cons, List.filterMap_nil,
    List.mergeSort_singleton]

/-- C8: every recommendation pairs a shortage row and a surplus row of the
same blood type and proposes exactly `min(shortage, surplus) > 0` units; and
Scenario A yields the single recommendation of 8 units from hospitalB (id 2)
to hospitalA (id 1). -/
theorem claim_C8 :
    (∀ (db : List InventoryLevel) (bt : Option String) (o : Recommendation),
       o ∈ identify_redistribution_opportunities db bt →
       ∃ sh ∈ get_inventory_status db bt none,
       ∃ sp ∈ get_inventory_status db bt none,
         0 < sh.shortage ∧ 0 < sp.surplus ∧ sh.blood_type = sp.blood_type ∧
         o.blood_type = sh.blood_type ∧ o.from_hospital_id = sp.hospital_id ∧
         o.to_hospital_id = sh.hospital_id ∧
         o.transfer_units = min (sh.shortage : ℚ) sp.surplus ∧ 0 < o.transfer_units)
  ∧ (identify_redistribution_opportunities demo_db none).map
       (fun o => (o.from_hospital_id, o.to_hospital_id, o.blood_type, o.transfer_units))
     = [(2, 1, "O+", (8 : ℚ))] := by
  constructor
  · intro db bt o ho
    rw [mem_identify_iff] at ho
    obtain ⟨sh, hshmem, sp, hspmem, hshpos, hsppos, hbt, hpos, rfl⟩ := ho
    exact ⟨sh, hshmem, sp, hspmem, hshpos, hsppos, hbt, rfl, rfl, rfl, rfl, hpos⟩
  · rw [demo_identify]
    norm_num [make_recommendation, inventory_status_of, hospitalA_cell, hospitalB_cell,
      max_def, min_def]

/-- Witness for C8: the Scenario A evaluation, via the theorem's second
conjunct. -/
theorem claim_C8_witness :
    (identify_redistribution_opportunities demo_db none).map
        (fun o => (o.from_hospital_id, o.to_hospital_id, o.blood_type, o.transfer_units))
      = [(2, 1, "O+", (8 : ℚ))] :=
  claim_C8.2

/-- C10: a status row with non-negative minimum requirement never has a
strictly positive shortage and a strictly positive surplus at once, and on a
database of distinct (hospital, blood type) cells with non-negative minimum
requirements no recommendation names the same hospital as source and
destination. -/
theorem claim_C10 :
    (∀ (db : List InventoryLevel) (bt r : Option String) (st : InventoryStatus),
       st ∈ get_inventory_status db bt r → 0 ≤ st.min_required →
       ¬(0 < st.shortage ∧ 0 < st.surplus))
  ∧ (∀ (db : List InventoryLevel) (bt : Option String) (o : Recommendation),
       (∀ c ∈ db, 0 ≤ c.min_required) →
       List.Pairwise (fun a b : InventoryLevel =>
         ¬(a.hospital_id = b.hospital_id ∧ a.blood_type = b.blood_type)) db →
       o ∈ identify_redistribution_opportunities db bt →
       o.from_hospital_id ≠ o.to_hospital_id) := by
  have part1 : ∀ (db : List InventoryLevel) (bt r : Option String) (st : InventoryStatus),
      st ∈ get_inventory_status db bt r → 0 ≤ st.min_required →
      ¬(0 < st.shortage ∧ 0 < st.surplus) := by
    intro db bt r st hmem hmin ⟨h1, h2⟩
    obtain ⟨c, _, rfl⟩ := mem_get_inventory_status hmem
    simp only [inventory_status_of] at h1 h2 hmin
    rw [lt_max_iff] at h1 h2
    have h1' : c.current_units < c.min_required := by omega
    have h2' : (c.min_required : ℚ) * 1.5 < (c.current_units : ℚ) := by
      rcases h2 with h | h
      · exact absurd h (lt_irrefl 0)
      · linarith
    have hcast : (c.current_units : ℚ) < (c.min_required : ℚ) := by exact_mod_cast h1'
    have hminq : (0 : ℚ) ≤ (c.min_required : ℚ) := by exact_mod_cast hmin
    linarith
  refine ⟨part1, ?_⟩
  intro db bt o hmin hpair ho
  rw [mem_identify_iff] at ho
  obtain ⟨sh, hshmem, sp, hspmem, hshpos, hsppos, hbt, hpos, rfl⟩ := ho
  intro heq
  simp only [make_recommendation] at heq
  obtain ⟨c1, hc1, hst1⟩ := mem_get_inventory_status hshmem
  obtain ⟨c2, hc2, hst2⟩ := mem_get_inventory_status hspmem
  have hid1 : c1.hospital_id = sh.hospital_id := by rw [← hst1]; rfl
  have hid2 : c2.hospital_id = sp.hospital_id := by rw [← hst2]; rfl
  have hbt1 : c1.blood_type = sh.blood_type := by rw [← hst1]; rfl
  have hbt2 : c2.blood_type = sp.blood_type := by rw [← hst2]; rfl
  have hsym : Symmetric (fun a b : InventoryLevel =>
      ¬(a.hospital_id = b.hospital_id ∧ a.blood_type = b.blood_type)) :=
    fun a b hab ⟨e1, e2⟩ => hab ⟨e1.symm, e2.symm⟩
  have hcc : c1 = c2 := by
    by_contra hne
    exact (hpair.forall hsym hc1 hc2 hne)
      ⟨by rw [hid1, hid2, heq], by rw [hbt1, hbt2, hbt]⟩
  have hshsp : sh = sp := by rw [← hst1, ← hst2, hcc]
  have hminc : 0 ≤ sh.min_required := by
    rw [← hst1]
    exact hmin c1 hc1
  exact part1 db bt none sh hshmem hminc ⟨hshpos, hshsp ▸ hsppos⟩

/-- Witness for C10: the hospitalA cell of Scenario A has shortage 8 but no
surplus. -/
theorem claim_C10_witness :
    ¬(0 < (inventory_status_of hospitalA_cell).shortage ∧
      0 < (inventory_status_of hospitalA_cell).surplus) :=
  claim_C10.1 demo_db none none (inventory_status_of hospitalA_cell)
    (by simp [get_inventory_status, demo_db])
    (by norm_num [inventory_status_of, hospitalA_cell])

/-- The blood-type keys collected by the `defaultdict` fold all come from the
grouped forecast list (or from the accumulator). -/
lemma keys_from_fold (l : List DemandForecast) (acc : List String) (x : String) :
    x ∈ l.foldl (fun acc f => if f.blood_type ∈ acc then acc else acc ++ [f.blood_type]) acc →
    x ∈ acc ∨ ∃ f ∈ l, f.blood_type = x := by
  induction l generalizing acc with
  | nil => exact fun h => Or.inl h
  | cons f fs ih =>
    intro h
    rw [List.foldl_cons] at h
    rcases ih _ h with hacc | ⟨g, hg, hx⟩
    · by_cases hf : f.blood_type ∈ acc
      · rw [if_pos hf] at hacc
        exact Or.inl hacc
      · rw [if_neg hf] at hacc
        rcases List.mem_append.mp hacc with h1 | h1
        · exact Or.inl h1
        · exact Or.inr ⟨f, List.mem_cons_self f fs, (List.mem_singleton.mp h1).symm⟩
    · exact Or.inr ⟨g, List.mem_cons_of_mem f hg, hx⟩

/-- With a blood-type filter, every recommendation carries that blood type. -/
lemma blood_type_of_mem_identify {db : List InventoryLevel} {bt : String}
    {o : Recommendation}
    (h : o ∈ identify_redistribution_opportunities db (some bt)) :
    o.blood_type = bt := by
  rw [mem_identify_iff] at h
  obtain ⟨sh, hshmem, sp, _, _, _, _, _, rfl⟩ := h
  exact blood_type_of_mem_status hshmem

/-- C9: every recommendation of `apply_forecast_based_redistribution` is
triggered by some forecast whose risk index reaches the threshold index and
whose blood type matches; with threshold "High", a forecast list of only
Low/Medium risks produces no recommendation at all. -/
theorem claim_C9 :
    (∀ (db : List InventoryLevel) (fs : List DemandForecast) (t : String) (ti : ℕ)
       (plan : List Recommendation),
       riskIndex? t = some ti →
       apply_forecast_based_redistribution db fs t = .ok plan →
       ∀ o ∈ plan, ∃ f ∈ fs, ∃ fi, riskIndex? f.shortage_risk = some fi ∧
         ti ≤ fi ∧ f.blood_type = o.blood_type)
  ∧ (∀ (db : List InventoryLevel) (fs : List DemandForecast),
       (∀ f ∈ fs, f.shortage_risk = "Low" ∨ f.shortage_risk = "Medium") →
       apply_forecast_based_redistribution db fs "High" = .ok []) := by
  constructor
  · intro db fs t ti plan hti happ o ho
    simp only [apply_forecast_based_redistribution, hti] at happ
    split_ifs at happ with hvalid
    · obtain rfl := Except.ok.inj happ
      rw [List.mem_flatMap] at ho
      obtain ⟨btk, hbtk, ho2⟩ := ho
      rw [List.mem_map] at ho2
      obtain ⟨opp, hopp, rfl⟩ := ho2
      have hob : opp.blood_type = btk := blood_type_of_mem_identify hopp
      rcases keys_from_fold _ [] btk hbtk with h0 | ⟨f, hf, hfbt⟩
      · cases h0
      · obtain ⟨hfmem, hcondb⟩ := List.mem_filter.mp hf
        have hcond : ti ≤ (riskIndex? f.shortage_risk).getD 0 := of_decide_eq_true hcondb
        obtain ⟨fi, hfi⟩ := Option.isSome_iff_exists.mp (hvalid f hfmem)
        refine ⟨f, hfmem, fi, hfi, ?_, ?_⟩
        · rw [hfi] at hcond
          exact hcond
        · rw [hfbt]
          exact hob.symm
  · intro db fs hlm
    simp only [apply_forecast_based_redistribution,
      show riskIndex? "High" = some 2 from rfl]
    have hvalid : ∀ f ∈ fs, (riskIndex? f.shortage_risk).isSome = true := by
      intro f hf
      rcases hlm f hf with h | h <;> rw [h] <;> rfl
    rw [if_pos hvalid]
    have hfil : fs.filter (fun f => decide (2 ≤ (riskIndex? f.shortage_risk).getD 0)) = [] := by
      rw [List.filter_eq_nil_iff]
      intro f hf
      rcases hlm f hf with h | h <;> rw [h] <;> decide
    rw [hfil]
    rfl

/-- Witness for C9: a single Low-risk forecast triggers no recommendation
under the "High" threshold. -/
theorem claim_C9_witness :
    apply_forecast_based_redistribution demo_db
      [{ blood_type := "O+", region := "South Delhi", forecast_date := ⟨1, 0⟩,
         predicted_demand := 10, confidence := 0, shortage_risk := "Low",
         alert_sent := false }] "High" = .ok [] :=
  claim_C9.2 demo_db _ (by
    intro f hf
    rw [List.mem_singleton.mp hf]
    left
    rfl)

/-- The forecast batch generated by the concrete trained forecaster for the
single region "South Delhi", over a database whose every cell holds 0 units. -/
noncomputable def demo_forecasts : List DemandForecast :=
  match generate_forecasts trained_forecaster (fun _ _ => 0) ⟨1, 0⟩
      (fun _ _ => 1) (some ["South Delhi"]) with
  | .ok fs => fs
  | .error _ => []

/-- Observable fields of the demo batch: every cell gets predicted demand 10
and risk "Low" — computed from the hard-coded inventory 50, although the
database holds 0 units everywhere. -/
lemma demo_forecasts_proj :
    demo_forecasts.map
        (fun f => (f.blood_type, f.region, f.predicted_demand, f.shortage_risk, f.alert_sent)) =
      [("O+", "South Delhi", (10 : ℚ), "Low", false),
       ("A+", "South Delhi", 10, "Low", false),
       ("B+", "South Delhi", 10, "Low", false),
       ("AB+", "South Delhi", 10, "Low", false),
       ("O-", "South Delhi", 10, "Low", false),
       ("A-", "South Delhi", 10, "Low", false),
       ("B-", "South Delhi", 10, "Low", false),
       ("AB-", "South Delhi", 10, "Low", false)] := by
  norm_num [demo_forecasts, generate_forecasts, predict_demand, assess_shortage_risk,
    trained_forecaster, demo_forest, constant_encoder, determine_season, blood_types,
    List.flatMap_cons, List.flatMap_nil, List.filterMap_cons, List.filterMap_nil]

/-- The demo batch is non-empty (it has one forecast per blood type). -/
lemma demo_forecasts_ne_nil : demo_forecasts ≠ [] := by
  intro h0
  have hp := demo_forecasts_proj
  rw [h0] at hp
  simp at hp

/-- C1 as stated is false on the code: `generate_forecasts` never looks up the
cell's current inventory (it hard-codes 50), so over a database holding 0
units everywhere the batch reports risk "Low" where a per-cell lookup would
force "Critical". -/
theorem claim_C1_counterexample :
    ¬ (∀ f ∈ demo_forecasts,
        f.shortage_risk =
          assess_shortage_risk f.predicted_demand
            ((fun _ _ => (0 : ℤ)) f.blood_type f.region)) := by
  intro h
  have hne : demo_forecasts ≠ [] := demo_forecasts_ne_nil
  have hh : demo_forecasts.head? = some (demo_forecasts.head hne) :=
    List.head?_eq_head hne
  have hmap := congrArg List.head? demo_forecasts_proj
  rw [List.head?_map, hh] at hmap
  simp only [Option.map_some', List.head?_cons, Option.some.injEq, Prod.mk.injEq] at hmap
  obtain ⟨-, -, hpd, hsr, -⟩ := hmap
  have h1 := h _ (List.head_mem hne)
  rw [hsr, hpd] at h1
  norm_num [assess_shortage_risk] at h1
  exact absurd h1 (by decide)

/-- C1 amended: for every successful `generate_forecasts` batch, each
forecast's shortage risk is computed by passing the fixed demo inventory of 50
units (not a per-cell database lookup) to `assess_shortage_risk`, and the
record carries `alert_sent = false`. -/
theorem claim_C1_amended :
    ∀ (s : BloodDemandForecaster) (db : String → String → ℤ) (fd : PyDateTime)
      (rand : String → String → ℚ) (regions : Option (List String))
      (fs : List DemandForecast),
      generate_forecasts s db fd rand regions = .ok fs →
      ∀ f ∈ fs, f.shortage_risk = assess_shortage_risk f.predicted_demand 50 ∧
        f.alert_sent = false := by
  intro s db fd rand regions fs hgen f hf
  simp only [generate_forecasts] at hgen
  split_ifs at hgen with ht
  obtain rfl := Except.ok.inj hgen
  rw [List.mem_flatMap] at hf
  obtain ⟨region, -, hf2⟩ := hf
  rw [List.mem_filterMap] at hf2
  obtain ⟨bt, -, hf3⟩ := hf2
  rcases hpred : predict_demand s bt region fd (rand bt region) with e | ⟨p, c⟩
  · rw [hpred] at hf3
    cases hf3
  · rw [hpred] at hf3
    simp only [Option.some.injEq] at hf3
    obtain rfl := hf3
    exact ⟨rfl, rfl⟩

/-- Witness for the amended C1: the first forecast of the concrete demo
batch has its risk computed from the fixed inventory 50 and carries
`alert_sent = false`. -/
theorem claim_C1_witness :
    (demo_forecasts.head demo_forecasts_ne_nil).shortage_risk =
        assess_shortage_risk
          (demo_forecasts.head demo_forecasts_ne_nil).predicted_demand 50 ∧
      (demo_forecasts.head demo_forecasts_ne_nil).alert_sent = false :=
  claim_C1_amended trained_forecaster (fun _ _ => 0) ⟨1, 0⟩ (fun _ _ => 1)
    (some ["South Delhi"]) demo_forecasts rfl
    (demo_forecasts.head demo_forecasts_ne_nil)
    (List.head_mem demo_forecasts_ne_nil)

end Bloodlink
